import Mathlib

/-!
# Verification of the Social Proof Widget popup engine

A shallow embedding of the client-side popup scheduling and display engine
(`SocialProofWidget` in the storefront script) together with theorems about
its behavior: the dismissal tracker, the activity cycler, position handling,
HTML escaping, the timer-driven show/hide loop, teardown, and the counter
badge's one-shot animation.

JavaScript numbers that hold the dismissal count are modelled as
`Option Int`, where `none` stands for `NaN` (the result of `parseInt` on a
string with no parsable integer prefix).  Timers are modelled explicitly as
a list of pending timers with absolute fire times, and the event loop as a
deterministic driver that fires the earliest timer (ties broken by creation
order, as in a real event loop) interleaved with scripted external events
(user dismiss clicks, `destroy()` calls).
-/

set_option maxRecDepth 8000

namespace SocialProof

/-! ## JavaScript primitives: `parseInt(s, 10)`, `Number.prototype.toString` -/

/-- Numeric value of a decimal digit character, `none` if not a digit. -/
def digitVal (c : Char) : Option Nat :=
  if c.isDigit then some (c.toNat - 48) else none

/-- Accumulate the longest decimal-digit prefix of a character list,
as `parseInt` does after sign handling. -/
def parseDigits : List Char → Nat → Nat
  | [], acc => acc
  | c :: cs, acc =>
    match digitVal c with
    | some d => parseDigits cs (acc * 10 + d)
    | none => acc

/-- Does the character list start with a decimal digit?  `parseInt` returns
`NaN` exactly when, after whitespace and sign, no digit follows. -/
def hasLeadingDigit : List Char → Bool
  | [] => false
  | c :: _ => c.isDigit

/-- Whitespace skipped by `parseInt` before the sign and digits. -/
def isJsSpace (c : Char) : Bool :=
  c = ' ' ∨ c = '\t' ∨ c = '\n'

/-- Model of JavaScript `parseInt(s, 10)`: skip leading whitespace, read an
optional sign, then the longest digit prefix; `none` models `NaN`. -/
def jsParseInt (s : String) : Option Int :=
  match s.toList.dropWhile isJsSpace with
  | [] => none
  | c :: rest =>
    if c = '-' then
      (if hasLeadingDigit rest then some (-(parseDigits rest 0 : Int)) else none)
    else if c = '+' then
      (if hasLeadingDigit rest then some ((parseDigits rest 0 : Int)) else none)
    else
      (if hasLeadingDigit (c :: rest) then some ((parseDigits (c :: rest) 0 : Int))
       else none)

/-- The decimal digit character for `n % 10`. -/
def digitChar (n : Nat) : Char :=
  match n % 10 with
  | 0 => '0' | 1 => '1' | 2 => '2' | 3 => '3' | 4 => '4'
  | 5 => '5' | 6 => '6' | 7 => '7' | 8 => '8' | _ => '9'

/-- Fuel-driven digit extraction; with fuel above `n` it computes the
little-endian decimal digits of `n`.  Structural recursion on the fuel
keeps it reducible inside the kernel. -/
def natDigitsRevCore (fuel : Nat) (n : Nat) : List Char :=
  match fuel with
  | 0 => []
  | fuel + 1 =>
    if n < 10 then [digitChar n]
    else digitChar (n % 10) :: natDigitsRevCore fuel (n / 10)

/-- Little-endian decimal digits of a natural number (least significant
digit first); model of the digit production of `Number.prototype.toString`. -/
def natDigitsRev (n : Nat) : List Char := natDigitsRevCore (n + 1) n

/-- Model of `n.toString()` for a non-negative integer-valued JS number. -/
def natToString (n : Nat) : String :=
  String.mk (natDigitsRev n).reverse

/-- Model of `v.toString()` for an integer-valued JS number (`none` = `NaN`). -/
def jsNumToString (v : Option Int) : String :=
  match v with
  | none => "NaN"
  | some k => if k < 0 then "-" ++ natToString k.natAbs else natToString k.toNat

/-! ## Dismissal tracker

Source:
`getDismissCount()` returns `parseInt(localStorage.getItem('spp_dismiss_count') || '0', 10)`;
`incrementDismissCount()` stores `(getDismissCount() + 1).toString()`;
`shouldShowPopups()` returns `getDismissCount() < DISMISS_THRESHOLD` with
`DISMISS_THRESHOLD = 3`.  The storage cell is modelled as `Option String`
(`none` = key absent). -/

/-- JavaScript `v || dflt` for a string-or-null value: `null` and the empty
string are falsy, everything else is returned as-is. -/
def jsOrDefault (v : Option String) (dflt : String) : String :=
  match v with
  | none => dflt
  | some s => if s = "" then dflt else s

/-- Model of `getDismissCount()`; `none` models a `NaN` result of `parseInt`. -/
def getDismissCount (stored : Option String) : Option Int :=
  jsParseInt (jsOrDefault stored ("0"))

/-- The fixed dismissal threshold from the widget constructor. -/
def DISMISS_THRESHOLD : Int := 3

/-- JavaScript `a < b` where `a` may be `NaN` (`none`): any comparison with
`NaN` is false. -/
def jsLtNum (a : Option Int) (b : Int) : Bool :=
  match a with
  | none => false
  | some x => x < b

/-- Model of `shouldShowPopups()`. -/
def shouldShowPopups (stored : Option String) : Bool :=
  jsLtNum (getDismissCount stored) DISMISS_THRESHOLD

/-- JavaScript `x + 1` on a possibly-`NaN` number (`NaN + 1 = NaN`). -/
def jsNumAdd1 (a : Option Int) : Option Int := a.map (· + 1)

/-- Model of `incrementDismissCount()`: reads, adds one, stores the decimal
string; returns the new storage state. -/
def incrementDismissCount (stored : Option String) : Option String :=
  some (jsNumToString (jsNumAdd1 (getDismissCount stored)))

/-! ## Activity cycler -/

/-- One activity record as consumed by the widget (all fields come from the
embedded configuration). -/
structure Activity where
  productImage : String
  productTitle : String
  city : String
  timeAgo : String
  deriving DecidableEq, Repr

/-- Model of `getNextActivity()`: returns the current entry and the advanced
cursor; on an empty queue returns `null` and leaves the cursor untouched. -/
def getNextActivity (queue : List Activity) (index : Nat) :
    Option Activity × Nat :=
  if queue.length = 0 then (none, index)
  else (queue[index]?, (index + 1) % queue.length)

/-- Iterate `getNextActivity` `n` times, collecting the returned values and
the final cursor. -/
def cyclerRun (queue : List Activity) : Nat → Nat → List (Option Activity) × Nat
  | index, 0 => ([], index)
  | index, n + 1 =>
    let p := getNextActivity queue index
    let r := cyclerRun queue p.2 n
    (p.1 :: r.1, r.2)

/-! ## Position handling

Source `setupContainer()`:
`const position = this.settings.popupPosition || 'BOTTOM_LEFT';`
`const positionClass = position.toLowerCase().replace('_', '-');`
and `createPopupElement()` recomputes the same expression for the class
`spp-popup spp-popup--${position}`.  JavaScript `replace` with a string
pattern replaces only the first occurrence. -/

/-- Model of `s.toLowerCase()` (ASCII suffices for the values in play). -/
def jsToLower (s : String) : String := String.mk (s.toList.map Char.toLower)

/-- Replace the first underscore with a hyphen, as the single-occurrence
string form of `replace` does for this call site. -/
def replaceFirstUnderscore : List Char → List Char
  | [] => []
  | c :: cs => if c = '_' then '-' :: cs else c :: replaceFirstUnderscore cs

/-- Shared computation `position.toLowerCase().replace('_', '-')`. -/
def positionClassRaw (position : String) : String :=
  String.mk (replaceFirstUnderscore (jsToLower position).toList)

/-- Class applied to the container by `setupContainer()`. -/
def setupContainerClass (popupPosition : Option String) : String :=
  positionClassRaw (jsOrDefault popupPosition ("BOTTOM_LEFT"))

/-- Class applied to the popup element by `createPopupElement()`. -/
def popupElementClass (popupPosition : Option String) : String :=
  "spp-popup spp-popup--" ++ positionClassRaw (jsOrDefault popupPosition ("BOTTOM_LEFT"))

/-- The four position classes the spec enumerates, in kebab case as applied
to the DOM. -/
def enumPositionClasses : List String :=
  ["bottom-left", "bottom-right", "top-left", "top-right"]

/-! ## HTML escaping and the popup markup -/

/-- Escape of a single character under the `div.textContent` /
`div.innerHTML` trick used by `escapeHtml`: text-node serialisation escapes
the ampersand and the angle brackets (quotes stay as-is). -/
def escapeChar (c : Char) : String :=
  if c = '&' then "&amp;"
  else if c = '<' then "&lt;"
  else if c = '>' then "&gt;"
  else String.singleton c

/-- Model of `escapeHtml(text)`: falsy (empty) input returns the empty
string, otherwise every character is serialised as HTML text. -/
def escapeHtml (text : String) : String :=
  if text = "" then "" else String.join (text.toList.map escapeChar)

/-- The popup markup template with its four interpolation holes, exactly the
segments of the template literal in `createPopupElement()`. -/
def popupTemplate (img title city time : String) : String :=
  "\n        <button class=\"spp-popup-close\" aria-label=\"Close\">&times;</button>\n        <div class=\"spp-popup-content\">\n          <img class=\"spp-popup-image\" src=\"" ++
  img ++
  "\" alt=\"" ++
  title ++
  "\" loading=\"lazy\">\n          <div class=\"spp-popup-text\">\n            <p class=\"spp-popup-title\">Someone from <strong>" ++
  city ++
  "</strong> just purchased</p>\n            <p class=\"spp-popup-product\">" ++
  title ++
  "</p>\n            <p class=\"spp-popup-time\">" ++
  time ++
  "</p>\n          </div>\n        </div>\n        <div class=\"spp-popup-verified\">\n          <span class=\"spp-verified-icon\">&#10003;</span> Verified purchase\n        </div>\n      "

/-- The `innerHTML` assigned in `createPopupElement(activity)`, transcribed
from the source: `productImage`, `productTitle` and `city` go through
`escapeHtml`, `timeAgo` is interpolated directly. -/
def popupInnerHTML (a : Activity) : String :=
  popupTemplate (escapeHtml a.productImage) (escapeHtml a.productTitle)
    (escapeHtml a.city) a.timeAgo

/-- Modelled from the spec's words for the escaping claim: the same markup
with every displayed field, including `timeAgo`, passed through
`escapeHtml`.  Used only for comparison with `popupInnerHTML`. -/
def popupInnerHTMLSpecAllEscaped (a : Activity) : String :=
  popupTemplate (escapeHtml a.productImage) (escapeHtml a.productTitle)
    (escapeHtml a.city) (escapeHtml a.timeAgo)

/-! ## The scheduler as an explicit timer system

The widget schedules three kinds of `setTimeout` callbacks.  Only the wait
timer's id is stored (in `this.timeoutId`); `showPopup` discards the id of
the auto-hide timer and `hidePopup` discards the id of its 300 ms cleanup
timer, exactly as the source does. -/

/-- The settings fields the scheduler reads (timing fields in seconds, as
in the configuration payload). -/
structure Settings where
  popupEnabled : Bool
  popupPosition : Option String
  popupDelay : Nat
  displayDuration : Nat
  counterEnabled : Bool
  deriving DecidableEq, Repr

/-- Which callback a pending `setTimeout` will run. -/
inductive TimerKind
  | waitFired
  | autoHide
  | hideCleanup
  deriving DecidableEq, Repr

/-- A pending timer: its id, absolute fire time in milliseconds, and
callback. -/
structure Timer where
  id : Nat
  fireAt : Nat
  kind : TimerKind
  deriving DecidableEq, Repr

/-- The full mutable state of one widget plus its timer environment. -/
structure WidgetState where
  settings : Settings
  activityQueue : List Activity
  activityIndex : Nat
  dismissStored : Option String
  currentPopup : Option Nat
  containerChildren : List Nat
  timeoutId : Option Nat
  timers : List Timer
  counterObserverConnected : Bool
  counterMounted : Bool
  nextId : Nat
  deriving DecidableEq, Repr

/-- Register a `setTimeout` callback; returns the new state and the timer
id, which the caller may keep or discard as the source does. -/
def setTimeoutAt (s : WidgetState) (fireAt : Nat) (kind : TimerKind) :
    WidgetState × Nat :=
  ({ s with timers := s.timers ++ [⟨s.nextId, fireAt, kind⟩],
            nextId := s.nextId + 1 }, s.nextId)

/-- `clearTimeout(id)`: drop the pending timer with this id, if any. -/
def clearTimeoutId (s : WidgetState) (id : Nat) : WidgetState :=
  { s with timers := s.timers.filter (fun t => t.id ≠ id) }

/-- Model of `scheduleNextPopup()`: schedules `showPopup` after
`popupDelay` seconds and stores the timer id in `this.timeoutId`. -/
def scheduleNextPopup (now : Nat) (s : WidgetState) : WidgetState :=
  let p := setTimeoutAt s (now + s.settings.popupDelay * 1000) TimerKind.waitFired
  { p.1 with timeoutId := some p.2 }

/-- `element.remove()` for a mounted popup id. -/
def removePopupFromDom (s : WidgetState) (pid : Nat) : WidgetState :=
  { s with containerChildren := s.containerChildren.filter (fun q => q ≠ pid) }

/-- Model of `showPopup()`: re-check the dismissal gate, pull the next
activity, remove any existing popup, mount the new one, and schedule the
auto-hide after `displayDuration` seconds (discarding that timer's id). -/
def showPopup (now : Nat) (s : WidgetState) : WidgetState :=
  if shouldShowPopups s.dismissStored = false then s
  else
    match getNextActivity s.activityQueue s.activityIndex with
    | (none, _) => s
    | (some _, newIndex) =>
      let s1 := { s with activityIndex := newIndex }
      let s2 :=
        match s1.currentPopup with
        | some pid => removePopupFromDom s1 pid
        | none => s1
      let pid := s2.nextId
      let s3 := { s2 with nextId := s2.nextId + 1,
                          containerChildren := s2.containerChildren ++ [pid],
                          currentPopup := some pid }
      (setTimeoutAt s3 (now + s3.settings.displayDuration * 1000)
        TimerKind.autoHide).1

/-- Model of `hidePopup()`: no-op when no popup is tracked, otherwise start
the exit animation and schedule the 300 ms cleanup (discarding the timer
id). -/
def hidePopup (now : Nat) (s : WidgetState) : WidgetState :=
  match s.currentPopup with
  | none => s
  | some _ => (setTimeoutAt s (now + 300) TimerKind.hideCleanup).1

/-- Model of the body of `hidePopup`'s 300 ms callback: remove the popup if
one is still tracked, then re-check the gate and schedule the next cycle. -/
def hideCleanupStep (now : Nat) (s : WidgetState) : WidgetState :=
  let s1 :=
    match s.currentPopup with
    | some pid => { removePopupFromDom s pid with currentPopup := none }
    | none => s
  if shouldShowPopups s1.dismissStored then scheduleNextPopup now s1 else s1

/-- Model of a user click on the close button of a mounted popup: the click
handler increments the dismissal count and calls `hidePopup()`.  The click
is only possible while a popup element is mounted in the container. -/
def userDismiss (now : Nat) (s : WidgetState) : WidgetState :=
  if s.containerChildren = [] then s
  else hidePopup now { s with dismissStored := incrementDismissCount s.dismissStored }

/-- Model of `destroy()`: clears `this.timeoutId` if set, removes the
tracked popup element (without clearing the `currentPopup` field, as the
source does not), empties the container, disconnects the observer, and
removes the counter element. -/
def destroy (s : WidgetState) : WidgetState :=
  let s1 :=
    match s.timeoutId with
    | some id => clearTimeoutId s id
    | none => s
  let s2 :=
    match s1.currentPopup with
    | some pid => removePopupFromDom s1 pid
    | none => s1
  { s2 with containerChildren := [],
            counterObserverConnected := false,
            counterMounted := false }

/-- Model of the popup part of `init()` on the success path (config,
settings and container present): load the feed, then start the loop when
`popupEnabled` and the dismissal gate allow it.  Timer ids start at 1, as
browser `setTimeout` ids are nonzero (`destroy` tests `this.timeoutId` for
truthiness). -/
def initWidget (settings : Settings) (demoActivities : List Activity)
    (dismissStored : Option String) : WidgetState :=
  let s : WidgetState :=
    { settings := settings, activityQueue := demoActivities, activityIndex := 0,
      dismissStored := dismissStored, currentPopup := none,
      containerChildren := [], timeoutId := none, timers := [],
      counterObserverConnected := false, counterMounted := false, nextId := 1 }
  if settings.popupEnabled && shouldShowPopups dismissStored then
    scheduleNextPopup 0 s
  else s

/-- Fire one pending timer: it is consumed, then its callback runs at its
fire time. -/
def fireTimer (t : Timer) (s : WidgetState) : WidgetState :=
  let s1 := { s with timers := s.timers.filter (fun u => u.id ≠ t.id) }
  match t.kind with
  | TimerKind.waitFired => showPopup t.fireAt s1
  | TimerKind.autoHide => hidePopup t.fireAt s1
  | TimerKind.hideCleanup => hideCleanupStep t.fireAt s1

/-- The earliest pending timer, ties broken by creation order — the order
in which a browser event loop runs them. -/
def nextTimer (ts : List Timer) : Option Timer :=
  ts.foldl
    (fun acc t =>
      match acc with
      | none => some t
      | some u =>
        if t.fireAt < u.fireAt ∨ (t.fireAt = u.fireAt ∧ t.id < u.id) then some t
        else some u)
    none

/-- External events a page visitor or host page can inject. -/
inductive ExtEvent
  | dismiss
  | destroyCall
  deriving DecidableEq, Repr

/-- Apply one external event at the given time. -/
def applyExt (e : ExtEvent) (now : Nat) (s : WidgetState) : WidgetState :=
  match e with
  | ExtEvent.dismiss => userDismiss now s
  | ExtEvent.destroyCall => destroy s

/-- Deterministic event-loop driver: repeatedly run whichever of the next
scripted external event and the earliest pending timer comes first, up to
the time `horizon`; `fuel` bounds the number of steps. -/
def runTo (fuel : Nat) (horizon : Nat) (script : List (Nat × ExtEvent))
    (s : WidgetState) : WidgetState :=
  match fuel with
  | 0 => s
  | fuel + 1 =>
    match nextTimer s.timers, script with
    | none, [] => s
    | none, (te, e) :: rest =>
      if te ≤ horizon then runTo fuel horizon rest (applyExt e te s) else s
    | some t, [] =>
      if t.fireAt ≤ horizon then runTo fuel horizon [] (fireTimer t s) else s
    | some t, (te, e) :: rest =>
      if te ≤ t.fireAt then
        if te ≤ horizon then runTo fuel horizon rest (applyExt e te s) else s
      else
        if t.fireAt ≤ horizon then runTo fuel horizon script (fireTimer t s)
        else s

/-- Pending timers of a given kind. -/
def timersOfKind (s : WidgetState) (k : TimerKind) : List Timer :=
  s.timers.filter (fun t => t.kind = k)

/-! ## Reachability and the at-most-one-popup invariant -/

/-- One step of the event system: a pending timer fires, or an external
event (user click, teardown call) arrives. -/
inductive WStep : WidgetState → WidgetState → Prop
  | fire (t : Timer) (s : WidgetState) (ht : t ∈ s.timers) : WStep s (fireTimer t s)
  | ext (e : ExtEvent) (now : Nat) (s : WidgetState) : WStep s (applyExt e now s)

/-- States reachable from some widget initialisation through event steps. -/
inductive Reachable : WidgetState → Prop
  | init (settings : Settings) (demo : List Activity) (stored : Option String) :
      Reachable (initWidget settings demo stored)
  | step {s s' : WidgetState} : Reachable s → WStep s s' → Reachable s'

/-- The DOM invariant: the container is empty, or holds exactly the popup
tracked by `currentPopup`. -/
def PopupInv (s : WidgetState) : Prop :=
  s.containerChildren = [] ∨
    ∃ pid, s.currentPopup = some pid ∧ s.containerChildren = [pid]

/-! ## Counter badge: one-shot observer and eased count-up -/

/-- Observable state of the counter badge controller. -/
structure CounterState where
  connected : Bool
  visibleClassAdded : Bool
  animationRuns : Nat
  deriving DecidableEq, Repr

/-- State right after `observeCounter`: observer armed, no run yet. -/
def observeCounterInit : CounterState :=
  { connected := true, visibleClassAdded := false, animationRuns := 0 }

/-- Model of the `IntersectionObserver` callback body: while connected, a
sufficiently-visible entry adds the visible class, starts one animation run
and disconnects the observer; after `disconnect()` the callback no longer
fires, so later entries are ignored. -/
def observerCallback (isIntersecting : Bool) (s : CounterState) : CounterState :=
  if s.connected then
    if isIntersecting then
      { connected := false, visibleClassAdded := true,
        animationRuns := s.animationRuns + 1 }
    else s
  else s

/-- Feed a sequence of visibility entries to the observer. -/
def processEntries (entries : List Bool) (s : CounterState) : CounterState :=
  entries.foldl (fun st e => observerCallback e st) s

/-- Invariant of the one-shot observer: while connected no run has
happened, and once disconnected at most one run ever has. -/
def CounterInv (s : CounterState) : Prop :=
  (s.connected = true ∧ s.animationRuns = 0) ∨
    (s.connected = false ∧ s.animationRuns ≤ 1)

/-- The cubic ease-out curve of `animateCounter`:
`progress = min(elapsed / duration, 1)`, `eased = 1 - (1 - progress)^3`. -/
def easedProgress (duration elapsed : ℚ) : ℚ :=
  1 - (1 - min (elapsed / duration) 1) ^ 3

/-- The integer displayed by `animateCounter` at a given elapsed time:
`Math.floor(eased * target)`. -/
def counterValueAt (target : Nat) (duration elapsed : ℚ) : Int :=
  Int.floor (easedProgress duration elapsed * target)

/-! ## Concrete fixtures used by the closed theorems -/

/-- A representative activity from the demo feed. -/
def demoActivity : Activity :=
  { productImage := "img.png", productTitle := "Widget", city := "Berlin",
    timeAgo := "2 minutes ago" }

/-- An activity whose `timeAgo` field carries markup. -/
def unsafeTimeActivity : Activity :=
  { productImage := "img.png", productTitle := "Widget", city := "Berlin",
    timeAgo := "<b>now</b>" }

/-- Settings with a 1 s delay and a 1 s display duration. -/
def raceSettings : Settings :=
  { popupEnabled := true, popupPosition := some ("BOTTOM_LEFT"),
    popupDelay := 1, displayDuration := 1, counterEnabled := false }

/-- Settings with a 1 s delay and a 10 s display duration. -/
def leakSettings : Settings :=
  { popupEnabled := true, popupPosition := some ("BOTTOM_LEFT"),
    popupDelay := 1, displayDuration := 10, counterEnabled := false }

/-- Engine started with a one-element feed and fresh storage, 1 s / 1 s. -/
def raceInit : WidgetState := initWidget raceSettings [demoActivity] none

/-- Engine started with a one-element feed and fresh storage, 1 s / 10 s. -/
def leakInit : WidgetState := initWidget leakSettings [demoActivity] none

/-- A state whose stored dismissal count has already reached the
threshold, with one wait timer still pending. -/
def gateClosedState : WidgetState :=
  { raceInit with dismissStored := some ("3") }

/-! ## Round-trip: `parseInt(n.toString(), 10) = n` -/

theorem digitVal_digitChar (n : Nat) : digitVal (digitChar n) = some (n % 10) := by
  unfold digitChar
  have h : n % 10 < 10 := Nat.mod_lt _ (by omega)
  interval_cases h' : n % 10 <;> simp_all [digitVal]

theorem digitChar_isDigit (n : Nat) : (digitChar n).isDigit = true := by
  unfold digitChar
  have h : n % 10 < 10 := Nat.mod_lt _ (by omega)
  interval_cases h' : n % 10 <;> simp_all

theorem natDigitsRevCore_fuel_irrel :
    ∀ fuel1 : Nat, ∀ fuel2 n : Nat, n < fuel1 → n < fuel2 →
      natDigitsRevCore fuel1 n = natDigitsRevCore fuel2 n := by
  intro fuel1
  induction fuel1 with
  | zero => intro fuel2 n h1; omega
  | succ f1 ih =>
    intro fuel2 n h1 h2
    cases fuel2 with
    | zero => omega
    | succ f2 =>
      simp only [natDigitsRevCore]
      by_cases h : n < 10
      · simp [h]
      · simp only [h, if_neg, if_false]
        have hlt : n / 10 < n := Nat.div_lt_self (by omega) (by omega)
        rw [ih f2 (n / 10) (by omega) (by omega)]

/-- The recurrence `natDigitsRev` satisfies, mirroring the digit loop of
`toString`. -/
theorem natDigitsRev_eq (n : Nat) :
    natDigitsRev n =
      if n < 10 then [digitChar n]
      else digitChar (n % 10) :: natDigitsRev (n / 10) := by
  unfold natDigitsRev
  rw [natDigitsRevCore]
  by_cases h : n < 10
  · simp [h]
  · simp only [h, if_neg, if_false]
    have hlt : n / 10 < n := Nat.div_lt_self (by omega) (by omega)
    rw [natDigitsRevCore_fuel_irrel n (n / 10 + 1) (n / 10) (by omega) (by omega)]

theorem natDigitsRev_all_digits (n : Nat) :
    ∀ c ∈ natDigitsRev n, c.isDigit = true := by
  induction n using Nat.strong_induction_on with
  | _ n ih =>
    rw [natDigitsRev_eq]
    split
    · intro c hc
      simp only [List.mem_singleton] at hc
      subst hc; exact digitChar_isDigit n
    · intro c hc
      simp only [List.mem_cons] at hc
      rcases hc with h | h
      · subst h; exact digitChar_isDigit _
      · exact ih (n / 10) (Nat.div_lt_self (by omega) (by omega)) c h

theorem natDigitsRev_ne_nil (n : Nat) : natDigitsRev n ≠ [] := by
  rw [natDigitsRev_eq]
  split <;> simp

theorem parseDigits_cons_digit (c : Char) (cs : List Char) (acc d : Nat)
    (h : digitVal c = some d) :
    parseDigits (c :: cs) acc = parseDigits cs (acc * 10 + d) := by
  simp [parseDigits, h]

theorem parseDigits_append_digit (l : List Char) (c : Char) (acc : Nat)
    (hl : ∀ x ∈ l, x.isDigit = true) (hc : c.isDigit = true) :
    parseDigits (l ++ [c]) acc = parseDigits l acc * 10 + (c.toNat - 48) := by
  induction l generalizing acc with
  | nil =>
    simp [parseDigits, digitVal, hc]
  | cons x xs ih =>
    have hx : x.isDigit = true := hl x (List.mem_cons_self x xs)
    rw [List.cons_append,
      parseDigits_cons_digit x _ _ (x.toNat - 48) (by simp [digitVal, hx]),
      parseDigits_cons_digit x _ _ (x.toNat - 48) (by simp [digitVal, hx])]
    exact ih _ (fun y hy => hl y (List.mem_cons_of_mem x hy))

theorem digitChar_toNat_sub (n : Nat) : (digitChar n).toNat - 48 = n % 10 := by
  have h := digitVal_digitChar n
  simp [digitVal, digitChar_isDigit] at h
  omega

/-- Parsing the reversed digit list of `n` with accumulator `acc` yields
`acc * 10 ^ (number of digits) + n`. -/
theorem parseDigits_natDigitsRev (n : Nat) (acc : Nat) :
    parseDigits (natDigitsRev n).reverse acc =
      acc * 10 ^ (natDigitsRev n).length + n := by
  induction n using Nat.strong_induction_on generalizing acc with
  | _ n ih =>
    by_cases h : n < 10
    · rw [natDigitsRev_eq, if_pos h]
      rw [List.reverse_singleton,
        parseDigits_cons_digit _ _ _ _ (digitVal_digitChar n)]
      simp [parseDigits, Nat.mod_eq_of_lt h]
    · conv_lhs => rw [natDigitsRev_eq, if_neg h]
      conv_rhs => rw [natDigitsRev_eq, if_neg h]
      rw [List.reverse_cons]
      rw [parseDigits_append_digit _ _ _
        (fun x hx => natDigitsRev_all_digits (n / 10) x (List.mem_reverse.mp hx))
        (digitChar_isDigit _)]
      rw [ih (n / 10) (Nat.div_lt_self (by omega) (by omega)) acc]
      rw [digitChar_toNat_sub]
      simp only [List.length_cons]
      have key : ∀ A : Nat, (A + n / 10) * 10 + n % 10 % 10 = A * 10 + n := by
        intro A; omega
      rw [key, pow_succ, ← mul_assoc]

theorem dropWhile_digits (l : List Char) (hl : ∀ c ∈ l, c.isDigit = true) :
    l.dropWhile isJsSpace = l := by
  cases l with
  | nil => rfl
  | cons c cs =>
    have hc := hl c (List.mem_cons_self c cs)
    have hs : isJsSpace c = false := by
      unfold isJsSpace
      simp only [decide_eq_false_iff_not]
      rintro (rfl | rfl | rfl) <;> revert hc <;> decide
    simp [List.dropWhile, hs]

/-- `parseInt` inverts `toString` on natural numbers. -/
theorem jsParseInt_natToString (n : Nat) : jsParseInt (natToString n) = some n := by
  unfold jsParseInt natToString
  rw [show (String.mk (natDigitsRev n).reverse).toList = (natDigitsRev n).reverse from rfl]
  rw [dropWhile_digits _ (fun c hc => natDigitsRev_all_digits n c (List.mem_reverse.mp hc))]
  rcases h : (natDigitsRev n).reverse with _ | ⟨c, cs⟩
  · exact absurd (by simpa using h) (natDigitsRev_ne_nil n)
  · have hc : c.isDigit = true := by
      have : c ∈ (natDigitsRev n).reverse := by rw [h]; exact List.mem_cons_self _ _
      exact natDigitsRev_all_digits n c (List.mem_reverse.mp this)
    have hcn : c ≠ '-' := by rintro rfl; revert hc; decide
    have hcp : c ≠ '+' := by rintro rfl; revert hc; decide
    have hpref : hasLeadingDigit (c :: cs) = true := by simp [hasLeadingDigit, hc]
    have hval : parseDigits (c :: cs) 0 = n := by
      have h0 := parseDigits_natDigitsRev n 0
      rw [h] at h0; simpa using h0
    simp [hcn, hcp, hpref, hval]

theorem natToString_ne_empty (n : Nat) : natToString n ≠ "" := by
  unfold natToString
  intro h
  have : (natDigitsRev n).reverse = [] := by
    have := congrArg String.toList h
    simpa using this
  exact natDigitsRev_ne_nil n (by simpa using this)

/-! ## Claim theorems -/

/-- C1: the auto-hide timer and a user dismissal race on the hide
transition, but the source stores neither the auto-hide timer id nor the
cleanup timer id, so the losing trigger is not cancelled.  With a 1 s delay
and a 1 s display duration, dismissing 100 ms before the auto-hide fires
makes both triggers run the full hide path: after both 300 ms cleanups have
run (time 2300 ms), two wait timers for the next cycle are pending — the
next cycle is scheduled twice, contradicting the claim that the losing
trigger is inert.  Only the user dismissal recorded a dismissal (count 1),
which is the half of the claim the code does satisfy. -/
theorem race_double_schedule :
    (timersOfKind (runTo 50 2500 [(1900, ExtEvent.dismiss)] raceInit)
        TimerKind.waitFired).length = 2 ∧
    (runTo 50 2500 [(1900, ExtEvent.dismiss)] raceInit).dismissStored =
      some ("1") ∧
    (timersOfKind raceInit TimerKind.waitFired).length = 1 := by
  refine ⟨by decide, by decide, by decide⟩

/-- C2: `destroy()` cancels only `this.timeoutId` (the wait timer); the
auto-hide timer id is discarded by `showPopup`, so tearing the engine down
at 1500 ms — while a popup is showing with a 10 s auto-hide pending —
leaves that timer pending.  Worse, because `destroy()` never clears
`this.currentPopup`, the leaked timer later runs the full hide path and
reschedules the loop: by 15 000 ms a new popup is mounted in the container
the teardown had emptied. -/
theorem destroy_timer_leak :
    (runTo 50 1500 [(1500, ExtEvent.destroyCall)] leakInit).timers =
      [⟨3, 11000, TimerKind.autoHide⟩] ∧
    (runTo 60 15000 [(1500, ExtEvent.destroyCall)] leakInit).containerChildren =
      [6] := by
  refine ⟨by decide, by decide⟩

/-- C3 (counterexample): a stored dismissal value with no parsable integer
prefix is not treated as 0.  `parseInt('abc', 10)` is `NaN`, so
`getDismissCount()` is `NaN`, and `NaN < 3` is false — the engine is
disabled, unlike a stored count of 0, for which the gate is open. -/
theorem corrupt_value_not_zero :
    getDismissCount (some ("abc")) ≠ some 0 ∧
    shouldShowPopups (some ("abc")) = false ∧
    shouldShowPopups (some ("0")) = true := by
  refine ⟨by decide, by decide, by decide⟩

/-- C3 (amended): an absent value reads as 0; a present value that
`parseInt` cannot parse reads as `NaN` — no error is surfaced, but the
dismissal gate then evaluates to false, so corruption disables the popups
rather than behaving like a count of 0. -/
theorem dismissCount_absent_zero_corrupt_nan (s : String) (hne : s ≠ "")
    (hnan : jsParseInt s = none) :
    getDismissCount none = some 0 ∧
    getDismissCount (some s) = none ∧
    shouldShowPopups (some s) = false := by
  have hg : getDismissCount (some s) = none := by
    simp only [getDismissCount, jsOrDefault]
    rw [if_neg hne]
    exact hnan
  refine ⟨by decide, hg, ?_⟩
  unfold shouldShowPopups
  rw [hg]
  rfl

theorem dismissCount_absent_zero_corrupt_nan_witness :
    getDismissCount none = some 0 ∧
    getDismissCount (some ("abc")) = none ∧
    shouldShowPopups (some ("abc")) = false :=
  dismissCount_absent_zero_corrupt_nan ("abc") (by decide) (by decide)

/-- C4 (counterexample): a position value outside the four-element enum is
not normalised to `BOTTOM_LEFT`.  The `||` fallback in `setupContainer` and
`createPopupElement` only replaces falsy (absent or empty) values, so the
malformed value `MIDDLE` is applied to the container as the class `middle`
and to the popup as `spp-popup spp-popup--middle` — neither is among the
four enumerated position classes. -/
theorem position_middle_not_normalized :
    setupContainerClass (some ("MIDDLE")) = "middle" ∧
    setupContainerClass (some ("MIDDLE")) ∉ enumPositionClasses ∧
    popupElementClass (some ("MIDDLE")) = "spp-popup spp-popup--middle" := by
  refine ⟨by decide, by decide, by decide⟩

/-- C4 (amended): only an absent or empty `popupPosition` falls back to
`BOTTOM_LEFT`; each of the four enum values maps to its kebab-case class;
any other non-empty value is applied as its lowercased, underscore-to-hyphen
form without raising an error, as `middle` illustrates; the popup element
uses the same class computation as the container. -/
theorem position_fallback_behavior :
    setupContainerClass none = "bottom-left" ∧
    setupContainerClass (some ("")) = "bottom-left" ∧
    setupContainerClass (some ("BOTTOM_LEFT")) = "bottom-left" ∧
    setupContainerClass (some ("BOTTOM_RIGHT")) = "bottom-right" ∧
    setupContainerClass (some ("TOP_LEFT")) = "top-left" ∧
    setupContainerClass (some ("TOP_RIGHT")) = "top-right" ∧
    setupContainerClass (some ("MIDDLE")) = "middle" ∧
    ∀ p : Option String,
      popupElementClass p = "spp-popup spp-popup--" ++ setupContainerClass p := by
  refine ⟨by decide, by decide, by decide, by decide, by decide, by decide,
    by decide, fun p => rfl⟩

/-- C8 (counterexample): the displayed `timeAgo` string is not passed
through `escapeHtml` — for an activity whose `timeAgo` carries markup, the
generated `innerHTML` differs from the all-fields-escaped markup the claim
describes. -/
theorem timeAgo_unescaped_counterexample :
    popupInnerHTML unsafeTimeActivity ≠
      popupInnerHTMLSpecAllEscaped unsafeTimeActivity := by
  decide

/-- C8 (amended): in the popup markup, `productImage`, `productTitle` and
`city` are each passed through `escapeHtml` before insertion, while
`timeAgo` is interpolated into its slot unescaped. -/
theorem popup_markup_escaping (a : Activity) :
    popupInnerHTML a =
      popupTemplate (escapeHtml a.productImage) (escapeHtml a.productTitle)
        (escapeHtml a.city) a.timeAgo := rfl

theorem popup_markup_escaping_witness :
    popupInnerHTML unsafeTimeActivity =
      popupTemplate (escapeHtml unsafeTimeActivity.productImage)
        (escapeHtml unsafeTimeActivity.productTitle)
        (escapeHtml unsafeTimeActivity.city) unsafeTimeActivity.timeAgo :=
  popup_markup_escaping unsafeTimeActivity

/-! ## C7: round-robin completeness of the cycler -/

/-- While the cursor stays in range, `n` calls return the `n` activities
starting at the cursor, in feed order, and leave the cursor at
`(start + n) mod N`. -/
theorem cyclerRun_within (q : List Activity) :
    ∀ n i : Nat, i < q.length → i + n ≤ q.length →
      cyclerRun q i n = (((q.drop i).take n).map some, (i + n) % q.length) := by
  intro n
  induction n with
  | zero =>
    intro i hi _
    simp [cyclerRun, Nat.mod_eq_of_lt hi]
  | succ n ih =>
    intro i hi hn
    have hlen : ¬q.length = 0 := by omega
    by_cases h1 : i + 1 < q.length
    · simp only [cyclerRun, getNextActivity, hlen, if_false,
        Nat.mod_eq_of_lt h1]
      rw [ih (i + 1) h1 (by omega)]
      rw [List.drop_eq_getElem_cons hi, List.take_succ_cons, List.map_cons,
        List.getElem?_eq_getElem hi,
        show i + (n + 1) = i + 1 + n from by omega]
    · have hend : i + 1 = q.length := by omega
      have hn0 : n = 0 := by omega
      subst hn0
      simp only [Nat.zero_add, cyclerRun, getNextActivity, hlen, if_false,
        hend, Nat.mod_self]
      rw [List.drop_eq_getElem_cons hi, List.take_succ_cons, List.take_zero,
        List.map_cons, List.map_nil, List.getElem?_eq_getElem hi]

/-- Peeling one call off the right end of an iterated run. -/
theorem cyclerRun_succ_right (q : List Activity) :
    ∀ n i : Nat,
      cyclerRun q i (n + 1) =
        ((cyclerRun q i n).1 ++ [(getNextActivity q (cyclerRun q i n).2).1],
         (getNextActivity q (cyclerRun q i n).2).2) := by
  intro n
  induction n with
  | zero => intro i; simp [cyclerRun]
  | succ n ih =>
    intro i
    conv_lhs => rw [cyclerRun]
    rw [ih]
    simp [cyclerRun]

/-- C7: for a non-empty feed of length `N`, `N` consecutive calls return
each activity exactly once, in feed order; call `N + 1` returns the first
activity again; on the empty feed every call returns `null`. -/
theorem cycler_round_robin (q : List Activity) (hq : q ≠ []) :
    (cyclerRun q 0 q.length).1 = q.map some ∧
    (cyclerRun q 0 (q.length + 1)).1 = q.map some ++ [q.head?] ∧
    ∀ n i : Nat, (cyclerRun [] i n).1 = List.replicate n none := by
  have hlen : 0 < q.length := List.length_pos.mpr hq
  have hfull := cyclerRun_within q q.length 0 hlen (by omega)
  refine ⟨?_, ?_, ?_⟩
  · rw [hfull]; simp
  · rw [cyclerRun_succ_right, hfull]
    simp only [List.drop_zero, List.take_length, Nat.zero_add, Nat.mod_self]
    rw [show getNextActivity q 0 = (q[0]?, (0 + 1) % q.length) from
      if_neg (by omega)]
    simp [List.head?_eq_getElem?]
  · intro n
    induction n with
    | zero => intro i; rfl
    | succ n ihn =>
      intro i
      simp [cyclerRun, getNextActivity, ihn, List.replicate_succ]

theorem cycler_round_robin_witness :
    (cyclerRun [demoActivity, unsafeTimeActivity] 0 2).1 =
      [demoActivity, unsafeTimeActivity].map some ∧
    (cyclerRun [demoActivity, unsafeTimeActivity] 0 3).1 =
      [demoActivity, unsafeTimeActivity].map some ++
        [([demoActivity, unsafeTimeActivity] : List Activity).head?] ∧
    ∀ n i : Nat, (cyclerRun [] i n).1 = List.replicate n none :=
  cycler_round_robin [demoActivity, unsafeTimeActivity] (by decide)

/-! ## C5: threshold gating -/

/-- C5: for every stored decimal count `n`, `getDismissCount` reads back
`n` and the gate `shouldShowPopups` is open exactly when `n < 3`; three
recorded dismissals from fresh storage close the gate; and once the gate is
closed, the end-of-cycle cleanup schedules no further timer — the loop
stops within the cycle in which the third dismissal happened. -/
theorem threshold_gating :
    (∀ n : Nat,
      getDismissCount (some (natToString n)) = some (n : Int) ∧
      shouldShowPopups (some (natToString n)) =
        decide ((n : Int) < DISMISS_THRESHOLD)) ∧
    shouldShowPopups (incrementDismissCount^[3] none) = false ∧
    (∀ now : Nat, ∀ s : WidgetState,
      shouldShowPopups s.dismissStored = false →
      (hideCleanupStep now s).timers = s.timers ∧
      (hideCleanupStep now s).timeoutId = s.timeoutId) := by
  refine ⟨?_, by decide, ?_⟩
  · intro n
    have h1 : getDismissCount (some (natToString n)) = some (n : Int) := by
      simp only [getDismissCount, jsOrDefault]
      rw [if_neg (natToString_ne_empty n)]
      exact jsParseInt_natToString n
    exact ⟨h1, by simp only [shouldShowPopups, h1, jsLtNum]⟩
  · intro now s h
    unfold hideCleanupStep
    cases hcp : s.currentPopup with
    | none => simp [hcp, h]
    | some pid => simp [hcp, h, removePopupFromDom]

theorem threshold_gating_witness :
    shouldShowPopups gateClosedState.dismissStored = false ∧
    (hideCleanupStep 2300 gateClosedState).timers = gateClosedState.timers ∧
    (hideCleanupStep 2300 gateClosedState).timeoutId =
      gateClosedState.timeoutId :=
  ⟨by decide, threshold_gating.2.2 2300 gateClosedState (by decide)⟩

/-! ## C10: the wait timer re-checks the gate -/

/-- C10: when a wait timer fires in a state whose dismissal gate is closed,
`showPopup` returns at its first guard: the timer is consumed and nothing
else changes — no popup is created, no auto-hide or wait timer is
scheduled. -/
theorem showPopup_gate_recheck (t : Timer) (s : WidgetState)
    (hk : t.kind = TimerKind.waitFired)
    (hgate : shouldShowPopups s.dismissStored = false) :
    fireTimer t s =
      { s with timers := s.timers.filter (fun u => u.id ≠ t.id) } := by
  unfold fireTimer
  rw [hk]
  unfold showPopup
  simp [hgate]

theorem showPopup_gate_recheck_witness :
    (⟨1, 1000, TimerKind.waitFired⟩ : Timer).kind = TimerKind.waitFired ∧
    shouldShowPopups gateClosedState.dismissStored = false ∧
    fireTimer ⟨1, 1000, TimerKind.waitFired⟩ gateClosedState =
      { gateClosedState with
        timers := gateClosedState.timers.filter (fun u => u.id ≠ 1) } :=
  ⟨rfl, by decide, showPopup_gate_recheck _ gateClosedState rfl (by decide)⟩

/-! ## C6: at most one popup instance -/

theorem hidePopup_PopupInv (now : Nat) (s : WidgetState) (h : PopupInv s) :
    PopupInv (hidePopup now s) := by
  unfold hidePopup
  cases hcp : s.currentPopup with
  | none => exact h
  | some pid =>
    rcases h with h0 | ⟨pid', hpid, hch⟩
    · left; simpa [setTimeoutAt] using h0
    · right
      exact ⟨pid', by simpa [setTimeoutAt] using hpid,
        by simpa [setTimeoutAt] using hch⟩

theorem showPopup_PopupInv (now : Nat) (s : WidgetState) (h : PopupInv s) :
    PopupInv (showPopup now s) := by
  unfold showPopup
  split
  · exact h
  · split
    · exact h
    · rcases h with h0 | ⟨pid, hpid, hch⟩
      · cases hcp : s.currentPopup with
        | none =>
          right
          exact ⟨s.nextId, by simp [hcp, setTimeoutAt],
            by simp [hcp, setTimeoutAt, h0]⟩
        | some pid =>
          right
          exact ⟨s.nextId, by simp [hcp, setTimeoutAt, removePopupFromDom],
            by simp [hcp, setTimeoutAt, removePopupFromDom, h0]⟩
      · right
        exact ⟨s.nextId, by simp [hpid, setTimeoutAt, removePopupFromDom],
          by simp [hpid, setTimeoutAt, removePopupFromDom, hch]⟩

theorem hideCleanupStep_PopupInv (now : Nat) (s : WidgetState)
    (h : PopupInv s) : PopupInv (hideCleanupStep now s) := by
  unfold hideCleanupStep
  cases hcp : s.currentPopup with
  | none =>
    simp only [hcp]
    split
    · rcases h with h0 | ⟨pid', hpid, hch⟩
      · left; simpa [scheduleNextPopup, setTimeoutAt] using h0
      · right
        exact ⟨pid', by simpa [scheduleNextPopup, setTimeoutAt] using hpid,
          by simpa [scheduleNextPopup, setTimeoutAt] using hch⟩
    · exact h
  | some pid =>
    have hempty : s.containerChildren.filter (fun q => q ≠ pid) = [] := by
      rcases h with h0 | ⟨pid', hpid, hch⟩
      · simp [h0]
      · rw [hcp] at hpid
        injection hpid with hpp
        subst hpp
        simp [hch]
    simp only [hcp]
    split
    · left
      simpa [scheduleNextPopup, setTimeoutAt, removePopupFromDom] using hempty
    · left
      simpa [removePopupFromDom] using hempty

theorem userDismiss_PopupInv (now : Nat) (s : WidgetState) (h : PopupInv s) :
    PopupInv (userDismiss now s) := by
  unfold userDismiss
  split
  · exact h
  · apply hidePopup_PopupInv
    rcases h with h0 | ⟨pid', hpid, hch⟩
    · left; exact h0
    · right; exact ⟨pid', hpid, hch⟩

theorem destroy_PopupInv (s : WidgetState) : PopupInv (destroy s) :=
  Or.inl rfl

theorem initWidget_PopupInv (settings : Settings) (demo : List Activity)
    (stored : Option String) : PopupInv (initWidget settings demo stored) := by
  unfold initWidget
  split
  · left; rfl
  · left; rfl

theorem fireTimer_PopupInv (t : Timer) (s : WidgetState) (h : PopupInv s) :
    PopupInv (fireTimer t s) := by
  unfold fireTimer
  have h' : PopupInv { s with timers := s.timers.filter (fun u => u.id ≠ t.id) } := by
    rcases h with h0 | ⟨pid', hpid, hch⟩
    · left; exact h0
    · right; exact ⟨pid', hpid, hch⟩
  cases t.kind with
  | waitFired => exact showPopup_PopupInv _ _ h'
  | autoHide => exact hidePopup_PopupInv _ _ h'
  | hideCleanup => exact hideCleanupStep_PopupInv _ _ h'

theorem applyExt_PopupInv (e : ExtEvent) (now : Nat) (s : WidgetState)
    (h : PopupInv s) : PopupInv (applyExt e now s) := by
  cases e with
  | dismiss => exact userDismiss_PopupInv now s h
  | destroyCall => exact destroy_PopupInv s

theorem wstep_PopupInv :
    ∀ {s s' : WidgetState}, WStep s s' → PopupInv s → PopupInv s'
  | _, _, WStep.fire t s _, h => fireTimer_PopupInv t s h
  | _, _, WStep.ext e now s, h => applyExt_PopupInv e now s h

/-- Every reachable state satisfies the DOM invariant. -/
theorem reachable_PopupInv (s : WidgetState) (hs : Reachable s) : PopupInv s := by
  induction hs with
  | init settings demo stored => exact initWidget_PopupInv settings demo stored
  | step _ hstep ih => exact wstep_PopupInv hstep ih

/-- In an invariant state with the gate open and an activity available,
`showPopup` leaves exactly the new popup mounted. -/
theorem showPopup_mounts_exactly_one (now : Nat) (s : WidgetState)
    (hinv : PopupInv s) (hgate : shouldShowPopups s.dismissStored = true)
    (a : Activity) (j : Nat)
    (hact : getNextActivity s.activityQueue s.activityIndex = (some a, j)) :
    (showPopup now s).containerChildren = [s.nextId] := by
  unfold showPopup
  rw [hgate, hact]
  simp only [Bool.true_eq_false, if_false]
  rcases hinv with h0 | ⟨pid, hpid, hch⟩
  · cases hcp : s.currentPopup with
    | none => simp [hcp, setTimeoutAt, h0]
    | some pid => simp [hcp, setTimeoutAt, removePopupFromDom, h0]
  · simp [hpid, setTimeoutAt, removePopupFromDom, hch]

/-- C6: in every reachable state at most one popup instance is mounted,
and a display trigger that fires while an instance is mounted removes it
before mounting the new one, leaving exactly the new instance in the
container. -/
theorem at_most_one_popup (s : WidgetState) (hs : Reachable s) :
    s.containerChildren.length ≤ 1 ∧
    (∀ now : Nat, ∀ a : Activity, ∀ j : Nat,
      shouldShowPopups s.dismissStored = true →
      getNextActivity s.activityQueue s.activityIndex = (some a, j) →
      (showPopup now s).containerChildren = [s.nextId]) := by
  have hinv := reachable_PopupInv s hs
  constructor
  · rcases hinv with h0 | ⟨pid, _, hch⟩
    · simp [h0]
    · simp [hch]
  · intro now a j hgate hact
    exact showPopup_mounts_exactly_one now s hinv hgate a j hact

theorem at_most_one_popup_witness :
    raceInit.containerChildren.length ≤ 1 ∧
    (showPopup 1000 raceInit).containerChildren = [raceInit.nextId] :=
  ⟨(at_most_one_popup raceInit
      (Reachable.init raceSettings [demoActivity] none)).1,
   (at_most_one_popup raceInit
      (Reachable.init raceSettings [demoActivity] none)).2
     1000 demoActivity 0 (by decide) (by decide)⟩

/-! ## C9: the counter animation fires once -/

theorem observerCallback_CounterInv (e : Bool) (s : CounterState)
    (h : CounterInv s) : CounterInv (observerCallback e s) := by
  unfold observerCallback
  rcases h with ⟨hc, hr⟩ | ⟨hc, hr⟩
  · rw [hc]
    simp only [if_true]
    split
    · right; exact ⟨rfl, by simp [hr]⟩
    · left; exact ⟨hc, hr⟩
  · rw [hc]
    simp only [Bool.false_eq_true, if_false]
    right; exact ⟨hc, hr⟩

theorem processEntries_CounterInv (es : List Bool) (s : CounterState)
    (h : CounterInv s) : CounterInv (processEntries es s) := by
  induction es generalizing s with
  | nil => exact h
  | cons e es ih =>
    simp only [processEntries, List.foldl_cons]
    exact ih _ (observerCallback_CounterInv e s h)

/-- C9: over any sequence of viewport entries the count-up animation runs
at most once, and exactly once for two intersecting entries (the observer
is disconnected after the first); within the single run the displayed
value is non-decreasing in elapsed time and equals the target once the
duration has elapsed — it never resets to 0 after completion. -/
theorem counter_animation_once :
    (∀ entries : List Bool,
      (processEntries entries observeCounterInit).animationRuns ≤ 1) ∧
    (processEntries [true, true] observeCounterInit).animationRuns = 1 ∧
    (processEntries [true, true] observeCounterInit).connected = false ∧
    (∀ target : Nat, ∀ d e1 e2 : ℚ, 0 < d → 0 ≤ e1 → e1 ≤ e2 →
      counterValueAt target d e1 ≤ counterValueAt target d e2) ∧
    (∀ target : Nat, ∀ d e : ℚ, 0 < d → d ≤ e →
      counterValueAt target d e = (target : Int)) := by
  refine ⟨?_, by decide, by decide, ?_, ?_⟩
  · intro es
    have h := processEntries_CounterInv es observeCounterInit
      (Or.inl ⟨rfl, rfl⟩)
    rcases h with ⟨_, hr⟩ | ⟨_, hr⟩
    · omega
    · exact hr
  · intro target d e1 e2 hd he1 h12
    unfold counterValueAt
    apply Int.floor_le_floor
    apply mul_le_mul_of_nonneg_right _ (Nat.cast_nonneg target)
    unfold easedProgress
    have hp : min (e1 / d) 1 ≤ min (e2 / d) 1 := by
      apply min_le_min _ le_rfl
      gcongr
    have hp1 : min (e2 / d) 1 ≤ 1 := min_le_right _ _
    have hpow : (1 - min (e2 / d) 1) ^ 3 ≤ (1 - min (e1 / d) 1) ^ 3 := by
      apply pow_le_pow_left₀ (by linarith) (by linarith)
    linarith
  · intro target d e hd he
    unfold counterValueAt easedProgress
    rw [min_eq_right ((one_le_div hd).mpr he)]
    norm_num [Int.floor_natCast]

theorem counter_animation_once_witness :
    counterValueAt 42 1500 0 ≤ counterValueAt 42 1500 1500 ∧
    counterValueAt 42 1500 1500 = (42 : Int) :=
  ⟨counter_animation_once.2.2.2.1 42 1500 0 1500 (by norm_num) (by norm_num)
      (by norm_num),
   counter_animation_once.2.2.2.2 42 1500 1500 (by norm_num) (by norm_num)⟩

end SocialProof
